import Mathlib

/-
  Shallow embedding of src/nav_data_pull_streamlit2.py.

  Dates are modelled as integers (day numbers); pandas timestamps compare
  exactly like their day numbers here because every timestamp involved is a
  midnight timestamp of a calendar day.  Market values are modelled as
  rationals.  A provider call that can raise a Python exception is modelled
  as an `Except String` value handed to the function that performs the call;
  the string is the exception message.  `ticker_obj.info` (used only for the
  display name of a fund) is modelled as a total function, since no claim
  concerns faults of that call.
-/

/-- A pandas DataFrame as returned by `yf.Ticker(t).quarterly_balance_sheet`:
columns are report dates, the index is the list of line-item row names, and
`loc r d` is the value of line item `r` at report date `d`.  A DataFrame is
`empty` when either axis has length zero. -/
structure BalanceSheet where
  columns : List ℤ
  index : List String
  loc : String → ℤ → ℚ

/-- The dictionary returned by `get_fundamentals_asof`.  The Python code
returns `None` for an absent field; `outside equity` is `None` only on the
all-absent paths and otherwise a number (0 when the line item is missing). -/
structure FundamentalsSnapshot where
  shares_outstanding : Option ℚ
  total_debt : Option ℚ
  outside_equity : Option ℚ
  report_date : Option ℤ
deriving DecidableEq

/-- The all-fields-`None` dictionary returned on the empty and no-valid-date
paths of `get_fundamentals_asof`. -/
def absentSnapshot : FundamentalsSnapshot :=
  ⟨none, none, none, none⟩

/-- The `for row in [...]: if row in balance.index: x = balance.loc[row, latest]; break`
pattern: first candidate row name present in the index wins; `none` when no
candidate is present. -/
def lookupFirst (balance : BalanceSheet) (latest : ℤ) : List String → Option ℚ
  | [] => none
  | r :: rs =>
      if r ∈ balance.index then some (balance.loc r latest)
      else lookupFirst balance latest rs

/-- The dictionary built at the end of `get_fundamentals_asof` once `latest`
has been selected.  `otequity` starts at `0` and is overwritten only when the
line item is present, which is exactly `getD 0` of the candidate lookup. -/
def snapshotAt (balance : BalanceSheet) (latest : ℤ) : FundamentalsSnapshot where
  shares_outstanding := lookupFirst balance latest
    ["Ordinary Shares Number", "Share Issued"]
  total_debt := lookupFirst balance latest
    ["Total Debt", "Long Term Debt", "Current Debt"]
  outside_equity := some
    ((lookupFirst balance latest ["Preferred Securities Outside Stock Equity"]).getD 0)
  report_date := some latest

/-- `get_fundamentals_asof` (src lines 53-92).  The fetch
`t.quarterly_balance_sheet` may raise; the Python function has no
try/except, so a raising fetch makes the whole call raise, which the model
renders as propagating the `Except.error`.  `balance.empty` is pandas
semantics: true when either axis is empty. -/
def get_fundamentals_asof (fetch : Except String BalanceSheet) (as_of_date : ℤ) :
    Except String FundamentalsSnapshot :=
  match fetch with
  | .error e => .error e
  | .ok balance =>
      if balance.columns = [] ∨ balance.index = [] then .ok absentSnapshot
      else
        match balance.columns.filter (fun d => decide (d ≤ as_of_date)) with
        | [] => .ok absentSnapshot
        | d :: ds => .ok (snapshotAt balance (List.foldl max d ds))

/-- `start_date = (target_date - timedelta(days=2)).strftime(...)` (src line 97). -/
def window_start (target_date : ℤ) : ℤ :=
  target_date - 2

/-- `end_date = (target_date + timedelta(days=2)).strftime(...)` (src line 98). -/
def window_end (target_date : ℤ) : ℤ :=
  target_date + 2

/-- `data.loc[date, "Close"]` on a frame whose index holds unique date
strings: the close recorded for the first row carrying that exact date. -/
def firstClose (date : String) : List (String × ℚ) → Option ℚ
  | [] => none
  | (d, c) :: rest => if date = d then some c else firstClose date rest

/-- `get_close_price` (src lines 41-50).  The price series returned by
`yf.Ticker(ticker).history(...)` is a list of (date string, close) rows; a
raising provider call is the `Except.error` case, which the `try/except`
converts to `None`. -/
def get_close_price (fetch : Except String (List (String × ℚ))) (date : String) :
    Option ℚ :=
  match fetch with
  | .error _ => none
  | .ok data =>
      if data = [] ∨ date ∉ data.map Prod.fst then none
      else firstClose date data

/-- Python truthiness of an optional number: `None` and `0` are falsy. -/
def pyTruthy (o : Option ℚ) : Bool :=
  match o with
  | none => false
  | some x => decide (x ≠ 0)

/-- Python `round` to an integer on an exact value: round half to even. -/
def roundHalfEven (q : ℚ) : ℤ :=
  if q - ⌊q⌋ < 1 / 2 then ⌊q⌋
  else if q - ⌊q⌋ > 1 / 2 then ⌊q⌋ + 1
  else if ⌊q⌋ % 2 = 0 then ⌊q⌋ else ⌊q⌋ + 1

/-- Python `round(x, 2)` on an exact value. -/
def roundTo2 (q : ℚ) : ℚ :=
  (roundHalfEven (q * 100) : ℚ) / 100

/-- `round(x / 1_000_000, 2) if x else None` (src lines 117-118). -/
def scaleMillions (o : Option ℚ) : Option ℚ :=
  if pyTruthy o then some (roundTo2 (o.getD 0 / 1000000)) else none

/-- `fund_price / nav_price if fund_price and nav_price else None` (src line 123). -/
def discountOf (fund_price nav_price : Option ℚ) : Option ℚ :=
  if pyTruthy fund_price && pyTruthy nav_price then
    some (fund_price.getD 0 / nav_price.getD 0)
  else none

/-- One row of the downloaded reference table before `dropna`: `Fund` and
`NAV` may be missing (NaN). -/
structure RawEntry where
  fund : Option String
  nav : Option String
  fund_type : String
  subcategory : String
  broad_category : String
  region : String
deriving DecidableEq

/-- One entry after `dropna(subset=["Fund", "NAV"])`: both tickers present. -/
structure FundEntry where
  fund : String
  nav : String
  fund_type : String
  subcategory : String
  broad_category : String
  region : String
deriving DecidableEq

/-- `df_tickers.dropna(subset=["Fund", "NAV"])` followed by the per-column
`tolist()` zips (src lines 25-32): rows missing either ticker are dropped,
the rest survive in order. -/
def load_tickers : List RawEntry → List FundEntry
  | [] => []
  | r :: rest =>
      match r.fund, r.nav with
      | some f, some n =>
          ⟨f, n, r.fund_type, r.subcategory, r.broad_category, r.region⟩
            :: load_tickers rest
      | _, _ => load_tickers rest

/-- The external market-data provider as seen by one run: the display name
from `info`, the price history for the fixed window, and the quarterly
balance sheet, each per ticker. -/
structure Provider where
  longName : String → Option String
  history : String → Except String (List (String × ℚ))
  balance : String → Except String BalanceSheet

/-- The row the code appends at src lines 125-128, with the column names of
the final DataFrame (src lines 132-136). -/
structure ReportRow where
  fund_name : String
  broad_category : String
  fund_type : String
  subcategory : String
  region : String
  date : String
  fund_ticker : String
  fund_price : Option ℚ
  nav_ticker : String
  nav_price : Option ℚ
  discount : Option ℚ
  shares_millions : Option ℚ
  debt_millions : Option ℚ
deriving DecidableEq

/-- One iteration of the run-button batch loop (src lines 104-128).  The
uncaught parts (the fundamentals fetch) propagate as `Except.error`; the
`outside equity` field is read into a local variable and never used. -/
def buildRow (p : Provider) (date_str : String) (as_of : ℤ) (e : FundEntry) :
    Except String ReportRow :=
  let fund_name := (p.longName e.fund).getD e.fund
  match get_fundamentals_asof (p.balance e.fund) as_of with
  | .error msg => .error msg
  | .ok fundamentals =>
      let shares_millions := scaleMillions fundamentals.shares_outstanding
      let debt_millions := scaleMillions fundamentals.total_debt
      let fund_price := get_close_price (p.history e.fund) date_str
      let nav_price := get_close_price (p.history e.nav) date_str
      let discount := discountOf fund_price nav_price
      .ok ⟨fund_name, e.broad_category, e.fund_type, e.subcategory, e.region,
           date_str, e.fund, fund_price, e.nav, nav_price, discount,
           shares_millions, debt_millions⟩

/-- The whole batch loop: rows are appended in input order; an exception in
any iteration aborts the run (no try/except around the loop body). -/
def build_report (p : Provider) (date_str : String) (as_of : ℤ) :
    List FundEntry → Except String (List ReportRow)
  | [] => .ok []
  | e :: es =>
      match buildRow p date_str as_of e with
      | .error msg => .error msg
      | .ok row =>
          match build_report p date_str as_of es with
          | .error msg => .error msg
          | .ok rows => .ok (row :: rows)

/-
  Concrete fixtures used by the per-claim witnesses and counterexamples.
-/

/-- A fund entry used by several concrete runs. -/
def entryC1 : FundEntry :=
  ⟨"FNDX", "NAVX", "", "", "", ""⟩

/-- A provider whose balance-sheet fetch raises. -/
def providerC1 : Provider :=
  ⟨fun _ => none, fun _ => .ok [], fun _ => .error ("network down")⟩

/-- A provider whose fund history reports a close of 0 on the target day and
whose NAV history reports a close of 1. -/
def providerC4 : Provider where
  longName := fun _ => none
  history := fun t =>
    if t = ("NAVX") then .ok [(("2024-01-05"), (1 : ℚ))]
    else .ok [(("2024-01-05"), (0 : ℚ))]
  balance := fun _ => .ok ⟨[], [], fun _ _ => 0⟩

/-- A balance sheet whose only line item reports the value 0. -/
def balC5 : BalanceSheet :=
  ⟨[0], ["Ordinary Shares Number"], fun _ _ => 0⟩

/-- A provider serving `balC5` and no price data. -/
def providerC5 : Provider :=
  ⟨fun _ => none, fun _ => .error ("no data"), fun _ => .ok balC5⟩

/-- A balance sheet with report dates 5 and 3 and one line item. -/
def balC3w : BalanceSheet :=
  ⟨[5, 3], ["Total Debt"], fun _ _ => 7⟩

/-- A non-empty balance sheet containing none of the candidate line items. -/
def balC6w : BalanceSheet :=
  ⟨[0], ["Cash"], fun _ _ => 4⟩

/-- A balance sheet holding both shares candidates and the first debt
candidate, with distinct values per line item. -/
def balC7w : BalanceSheet :=
  ⟨[0], ["Ordinary Shares Number", "Share Issued", "Total Debt"],
    fun r _ =>
      if r = ("Ordinary Shares Number") then 11
      else if r = ("Total Debt") then 22
      else 33⟩

/-- A reference-table row with both tickers present. -/
def rawValidW : RawEntry :=
  ⟨some ("FNDX"), some ("NAVX"), "T", "S", "B", "R"⟩

/-- A reference-table row missing the NAV ticker. -/
def rawBadW : RawEntry :=
  ⟨some ("FNDY"), none, "T", "S", "B", "R"⟩

/-- A provider with no price data and an empty balance sheet. -/
def providerC8w : Provider :=
  ⟨fun _ => none, fun _ => .error ("no data"),
    fun _ => .ok (⟨[], [], fun _ _ => 0⟩ : BalanceSheet)⟩

/-- The row produced for `rawValidW` under `providerC8w`. -/
def rowC8w : ReportRow :=
  ⟨"FNDX", "B", "T", "S", "R", "2024-01-05", "FNDX", none, "NAVX", none,
    none, none, none⟩

/-- Balance sheet for the noninterference witness: outside equity worth 5. -/
def balW1 : BalanceSheet :=
  ⟨[0], ["Total Debt", "Preferred Securities Outside Stock Equity"],
    fun r _ => if r = ("Preferred Securities Outside Stock Equity") then 5 else 7⟩

/-- Same sheet except the outside-equity line item is worth 9. -/
def balW2 : BalanceSheet :=
  ⟨[0], ["Total Debt", "Preferred Securities Outside Stock Equity"],
    fun r _ => if r = ("Preferred Securities Outside Stock Equity") then 9 else 7⟩

/-- Provider serving `balW1`. -/
def providerC10a : Provider :=
  ⟨fun _ => none, fun _ => .ok [(("2024-01-05"), (10 : ℚ))], fun _ => .ok balW1⟩

/-- Provider serving `balW2`. -/
def providerC10b : Provider :=
  ⟨fun _ => none, fun _ => .ok [(("2024-01-05"), (10 : ℚ))], fun _ => .ok balW2⟩

/-- Two runs are compared after changing only the value of the line item
"Preferred Securities Outside Stock Equity": everything else of the two
balance sheets agrees. -/
def agreeExceptOutside (b1 b2 : BalanceSheet) : Prop :=
  b1.columns = b2.columns ∧ b1.index = b2.index ∧
    ∀ (r : String) (d : ℤ),
      r ≠ "Preferred Securities Outside Stock Equity" → b1.loc r d = b2.loc r d

/-- Lift of `agreeExceptOutside` to possibly-raising fetches. -/
def balanceSimilar : Except String BalanceSheet → Except String BalanceSheet → Prop
  | .error m1, .error m2 => m1 = m2
  | .ok b1, .ok b2 => agreeExceptOutside b1 b2
  | _, _ => False

/-
  Helper lemmas.
-/

lemma foldl_max_mem : ∀ (ds : List ℤ) (d : ℤ),
    List.foldl max d ds = d ∨ List.foldl max d ds ∈ ds := by
  intro ds
  induction ds with
  | nil => intro d; exact Or.inl rfl
  | cons a as ih =>
      intro d
      rw [List.foldl_cons]
      rcases ih (max d a) with h | h
      · rcases max_choice d a with hm | hm
        · exact Or.inl (by rw [h, hm])
        · exact Or.inr (by rw [h, hm]; exact List.mem_cons_self a as)
      · exact Or.inr (List.mem_cons_of_mem a h)

lemma foldl_max_le : ∀ (ds : List ℤ) (d : ℤ),
    d ≤ List.foldl max d ds ∧ ∀ x ∈ ds, x ≤ List.foldl max d ds := by
  intro ds
  induction ds with
  | nil =>
      intro d
      refine ⟨le_refl d, ?_⟩
      intro x hx
      simp at hx
  | cons a as ih =>
      intro d
      rw [List.foldl_cons]
      obtain ⟨h1, h2⟩ := ih (max d a)
      refine ⟨le_trans (le_max_left d a) h1, ?_⟩
      intro x hx
      rcases List.mem_cons.mp hx with rfl | hx
      · exact le_trans (le_max_right d x) h1
      · exact h2 x hx

lemma firstClose_some_mem (date : String) :
    ∀ (data : List (String × ℚ)) (c : ℚ),
      firstClose date data = some c → date ∈ data.map Prod.fst := by
  intro data
  induction data with
  | nil => intro c h; simp [firstClose] at h
  | cons hd tl ih =>
      intro c h
      obtain ⟨a, b⟩ := hd
      rw [firstClose] at h
      by_cases hda : date = a
      · subst hda; simp
      · rw [if_neg hda] at h
        simp [ih c h]

lemma get_fundamentals_empty_filter (b : BalanceSheet) (as_of : ℤ)
    (hf : b.columns.filter (fun x => decide (x ≤ as_of)) = []) :
    get_fundamentals_asof (.ok b) as_of = .ok absentSnapshot := by
  simp only [get_fundamentals_asof]
  split
  · rfl
  · rw [hf]

lemma get_fundamentals_valid_branch (b : BalanceSheet) (as_of : ℤ)
    (hidx : b.index ≠ []) (d : ℤ) (ds : List ℤ)
    (hf : b.columns.filter (fun x => decide (x ≤ as_of)) = d :: ds) :
    get_fundamentals_asof (.ok b) as_of = .ok (snapshotAt b (List.foldl max d ds)) := by
  have hcols : b.columns ≠ [] := by
    intro h0
    rw [h0] at hf
    simp at hf
  simp only [get_fundamentals_asof]
  rw [if_neg (by push_neg; exact ⟨hcols, hidx⟩), hf]

lemma get_fundamentals_ok (b : BalanceSheet) (a : ℤ) :
    ∃ s, get_fundamentals_asof (.ok b) a = .ok s := by
  by_cases hemp : b.columns = [] ∨ b.index = []
  · exact ⟨absentSnapshot, by simp only [get_fundamentals_asof]; rw [if_pos hemp]⟩
  · cases hf : b.columns.filter (fun x => decide (x ≤ a)) with
    | nil =>
        exact ⟨absentSnapshot, by simp only [get_fundamentals_asof]; rw [if_neg hemp, hf]⟩
    | cons dd dds =>
        exact ⟨snapshotAt b (List.foldl max dd dds),
          by simp only [get_fundamentals_asof]; rw [if_neg hemp, hf]⟩

lemma get_fundamentals_ok_cases (b : BalanceSheet) (a : ℤ) (s : FundamentalsSnapshot)
    (h : get_fundamentals_asof (.ok b) a = .ok s) :
    s = absentSnapshot ∨
      ∃ (d : ℤ) (ds : List ℤ), b.columns.filter (fun x => decide (x ≤ a)) = d :: ds ∧
        s = snapshotAt b (List.foldl max d ds) := by
  simp only [get_fundamentals_asof] at h
  by_cases hemp : b.columns = [] ∨ b.index = []
  · rw [if_pos hemp] at h
    injection h with h
    exact Or.inl h.symm
  · rw [if_neg hemp] at h
    cases hf : b.columns.filter (fun x => decide (x ≤ a)) with
    | nil =>
        rw [hf] at h
        injection h with h
        exact Or.inl h.symm
    | cons dd dds =>
        rw [hf] at h
        injection h with h
        exact Or.inr ⟨dd, dds, rfl, h.symm⟩

lemma buildRow_ok_fields (p : Provider) (d : String) (a : ℤ) (e : FundEntry) (r : ReportRow)
    (h : buildRow p d a e = .ok r) :
    ∃ s, get_fundamentals_asof (p.balance e.fund) a = .ok s ∧
      r = ⟨(p.longName e.fund).getD e.fund, e.broad_category, e.fund_type, e.subcategory,
           e.region, d, e.fund, get_close_price (p.history e.fund) d, e.nav,
           get_close_price (p.history e.nav) d,
           discountOf (get_close_price (p.history e.fund) d)
             (get_close_price (p.history e.nav) d),
           scaleMillions s.shares_outstanding, scaleMillions s.total_debt⟩ := by
  simp only [buildRow] at h
  cases hs : get_fundamentals_asof (p.balance e.fund) a with
  | error msg => rw [hs] at h; simp at h
  | ok s =>
      rw [hs] at h
      simp only [Except.ok.injEq] at h
      exact ⟨s, rfl, h.symm⟩

lemma build_report_forall2 (p : Provider) (d : String) (a : ℤ) :
    ∀ (es : List FundEntry) (rows : List ReportRow),
      build_report p d a es = .ok rows →
      List.Forall₂ (fun e row => buildRow p d a e = .ok row) es rows := by
  intro es
  induction es with
  | nil =>
      intro rows h
      simp only [build_report, Except.ok.injEq] at h
      rw [← h]
      exact List.Forall₂.nil
  | cons e es ih =>
      intro rows h
      simp only [build_report] at h
      cases hb : buildRow p d a e with
      | error msg => rw [hb] at h; simp at h
      | ok row =>
          rw [hb] at h
          cases hr : build_report p d a es with
          | error msg => rw [hr] at h; simp at h
          | ok rows2 =>
              rw [hr] at h
              simp only [Except.ok.injEq] at h
              rw [← h]
              exact List.Forall₂.cons hb (ih rows2 hr)

lemma lookupFirst_congr (b1 b2 : BalanceSheet) (L : ℤ) (hidx : b1.index = b2.index) :
    ∀ (cands : List String), (∀ r ∈ cands, b1.loc r L = b2.loc r L) →
      lookupFirst b1 L cands = lookupFirst b2 L cands := by
  intro cands
  induction cands with
  | nil => intro _; rfl
  | cons r rs ih =>
      intro hloc
      simp only [lookupFirst]
      rw [hidx]
      by_cases hr : r ∈ b2.index
      · rw [if_pos hr, if_pos hr, hloc r (List.mem_cons_self r rs)]
      · rw [if_neg hr, if_neg hr]
        exact ih (fun x hx => hloc x (List.mem_cons_of_mem r hx))

lemma get_fundamentals_agree (b1 b2 : BalanceSheet) (a : ℤ)
    (hag : agreeExceptOutside b1 b2) (s1 s2 : FundamentalsSnapshot)
    (h1 : get_fundamentals_asof (.ok b1) a = .ok s1)
    (h2 : get_fundamentals_asof (.ok b2) a = .ok s2) :
    s1.shares_outstanding = s2.shares_outstanding ∧ s1.total_debt = s2.total_debt := by
  obtain ⟨hc, hi, hl⟩ := hag
  simp only [get_fundamentals_asof, hc, hi] at h1
  simp only [get_fundamentals_asof] at h2
  by_cases hemp : b2.columns = [] ∨ b2.index = []
  · rw [if_pos hemp] at h1 h2
    injection h1 with h1
    injection h2 with h2
    rw [← h1, ← h2]
    exact ⟨rfl, rfl⟩
  · rw [if_neg hemp] at h1 h2
    cases hf : b2.columns.filter (fun x => decide (x ≤ a)) with
    | nil =>
        rw [hf] at h1 h2
        injection h1 with h1
        injection h2 with h2
        rw [← h1, ← h2]
        exact ⟨rfl, rfl⟩
    | cons dd dds =>
        rw [hf] at h1 h2
        injection h1 with h1
        injection h2 with h2
        rw [← h1, ← h2]
        constructor
        · simp only [snapshotAt]
          refine lookupFirst_congr b1 b2 (List.foldl max dd dds) hi _ ?_
          intro r hr
          refine hl r (List.foldl max dd dds) ?_
          simp only [List.mem_cons, List.not_mem_nil, or_false] at hr
          rcases hr with rfl | rfl
          · decide
          · decide
        · simp only [snapshotAt]
          refine lookupFirst_congr b1 b2 (List.foldl max dd dds) hi _ ?_
          intro r hr
          refine hl r (List.foldl max dd dds) ?_
          simp only [List.mem_cons, List.not_mem_nil, or_false] at hr
          rcases hr with rfl | rfl | rfl
          · decide
          · decide
          · decide

lemma buildRow_agree (p1 p2 : Provider) (d : String) (a : ℤ) (e : FundEntry)
    (hname : p1.longName = p2.longName) (hhist : p1.history = p2.history)
    (hbal : balanceSimilar (p1.balance e.fund) (p2.balance e.fund)) :
    buildRow p1 d a e = buildRow p2 d a e := by
  cases h1 : p1.balance e.fund with
  | error m1 =>
      cases h2 : p2.balance e.fund with
      | error m2 =>
          rw [h1, h2] at hbal
          have hm : m1 = m2 := hbal
          subst hm
          simp only [buildRow, h1, h2, get_fundamentals_asof]
      | ok b2 =>
          rw [h1, h2] at hbal
          exact absurd hbal (by simp [balanceSimilar])
  | ok b1 =>
      cases h2 : p2.balance e.fund with
      | error m2 =>
          rw [h1, h2] at hbal
          exact absurd hbal (by simp [balanceSimilar])
      | ok b2 =>
          rw [h1, h2] at hbal
          have hag : agreeExceptOutside b1 b2 := hbal
          obtain ⟨s1, hs1⟩ := get_fundamentals_ok b1 a
          obtain ⟨s2, hs2⟩ := get_fundamentals_ok b2 a
          obtain ⟨hsh, hdb⟩ := get_fundamentals_agree b1 b2 a hag s1 s2 hs1 hs2
          simp only [buildRow, h1, h2, hs1, hs2, hname, hhist, hsh, hdb]

/-
  Claim theorems.
-/

/-- Claim C9: any provider-level fault raised inside the price lookup is
caught by the try/except of get_close_price and converted to an absent
price, never propagated to the caller. -/
theorem close_price_fault_absorbed (msg : String) (date : String) :
    get_close_price (.error msg) date = none :=
  rfl

/-- Claim C2: the price query window is the two calendar days around the
target date, and over the returned series get_close_price yields the close
recorded for the exact calendar-day string when that day appears, and an
absent result when the series is empty or the exact day string is not among
the returned trading days: no substitution of a neighbouring day. -/
theorem close_price_exact_day (t : ℤ) (data : List (String × ℚ)) (date : String) :
    window_start t = t - 2 ∧ window_end t = t + 2 ∧
    (data = [] ∨ date ∉ data.map Prod.fst → get_close_price (.ok data) date = none) ∧
    (∀ c : ℚ, firstClose date data = some c → get_close_price (.ok data) date = some c) := by
  refine ⟨rfl, rfl, ?_, ?_⟩
  · intro h
    simp only [get_close_price]
    rw [if_pos h]
  · intro c hc
    have hmem : date ∈ data.map Prod.fst := firstClose_some_mem date data c hc
    have hne : data ≠ [] := by
      intro h0
      rw [h0] at hmem
      simp at hmem
    simp only [get_close_price]
    rw [if_neg (by push_neg; exact ⟨hne, hmem⟩)]
    exact hc

/-- Claim C2 witness: a one-row series carrying the exact day yields that
close, and an empty series yields an absent result. -/
theorem close_price_exact_day_witness :
    get_close_price (.ok [(("2024-01-05"), (10 : ℚ))]) ("2024-01-05") = some 10 ∧
    get_close_price (.ok ([] : List (String × ℚ))) ("2024-01-05") = none := by
  constructor
  · exact (close_price_exact_day 0 [(("2024-01-05"), (10 : ℚ))] ("2024-01-05")).2.2.2
      10 (by rfl)
  · exact (close_price_exact_day 0 [] ("2024-01-05")).2.2.1 (Or.inl rfl)

/-- Claim C4 counterexample: a run in which both close prices are present
but the fund close is 0 produces a row whose discount is absent, so the
discount field is not present whenever both prices are present: Python
truthiness treats a 0.0 price like an absent one. -/
theorem discount_iff_present_counterexample :
    (buildRow providerC4 ("2024-01-05") 0 entryC1).map ReportRow.fund_price
        = .ok (some 0) ∧
    (buildRow providerC4 ("2024-01-05") 0 entryC1).map ReportRow.nav_price
        = .ok (some 1) ∧
    (buildRow providerC4 ("2024-01-05") 0 entryC1).map ReportRow.discount
        = .ok none :=
  ⟨rfl, rfl, rfl⟩

/-- Claim C4 (amended): discount is present iff both close prices are present
and nonzero, in which case it equals fund price over NAV price; an absent or
zero price on either side leaves discount absent, and the fundamentals data
never affects the discount column: two runs agreeing on price histories
agree on discount, which is a function of the two price fields alone. -/
theorem discount_truthy_gate (fp np : Option ℚ) :
    (∀ f n : ℚ, fp = some f → f ≠ 0 → np = some n → n ≠ 0 →
        discountOf fp np = some (f / n)) ∧
    (fp = none → discountOf fp np = none) ∧
    (np = none → discountOf fp np = none) ∧
    (fp = some 0 → discountOf fp np = none) ∧
    (np = some 0 → discountOf fp np = none) ∧
    (∀ (p1 p2 : Provider) (e : FundEntry) (d : String) (a : ℤ) (r1 r2 : ReportRow),
        p1.history = p2.history →
        buildRow p1 d a e = .ok r1 → buildRow p2 d a e = .ok r2 →
        r1.discount = r2.discount ∧
        r1.discount = discountOf r1.fund_price r1.nav_price) := by
  refine ⟨?_, ?_, ?_, ?_, ?_, ?_⟩
  · intro f n hf hfne hn hnne
    subst hf
    subst hn
    simp [discountOf, pyTruthy, hfne, hnne]
  · intro h
    subst h
    simp [discountOf, pyTruthy]
  · intro h
    subst h
    simp [discountOf, pyTruthy]
  · intro h
    subst h
    simp [discountOf, pyTruthy]
  · intro h
    subst h
    simp [discountOf, pyTruthy]
  · intro p1 p2 e d a r1 r2 hh h1 h2
    obtain ⟨s1, hf1, hr1⟩ := buildRow_ok_fields p1 d a e r1 h1
    obtain ⟨s2, hf2, hr2⟩ := buildRow_ok_fields p2 d a e r2 h2
    subst hr1
    subst hr2
    simp [hh]

/-- Claim C4 witness: the spec example 9.50 over 10.00 gives 0.95, and an
absent fund price gives an absent discount. -/
theorem discount_truthy_gate_witness :
    discountOf (some (19 / 2 : ℚ)) (some 10) = some (19 / 20) ∧
    discountOf none (some 10) = none := by
  constructor
  · have h := (discount_truthy_gate (some (19 / 2 : ℚ)) (some 10)).1 (19 / 2) 10
      rfl (by norm_num) rfl (by norm_num)
    rw [h]
    norm_num
  · exact (discount_truthy_gate none (some 10)).2.1 rfl

/-- Claim C5 counterexample: a snapshot whose shares-outstanding line item is
present with value 0 is scaled to an absent output field, not to 0.00, so
the output is not populated for every present value: Python truthiness
treats a present 0 like an absent value. -/
theorem scale_present_counterexample :
    (get_fundamentals_asof (providerC5.balance ("FNDX")) 0).map
        FundamentalsSnapshot.shares_outstanding = .ok (some 0) ∧
    (buildRow providerC5 ("2024-01-05") 0 entryC1).map ReportRow.shares_millions
        = .ok none :=
  ⟨rfl, rfl⟩

/-- Claim C5 (amended): a present nonzero shares-outstanding or total-debt
value is scaled to millions and rounded to two decimals (12,345,678 becomes
12.35), an absent value stays absent and is never coerced to 0, but a
present value of exactly 0 is also rendered absent; the report columns are
exactly these scalings of the resolved snapshot. -/
theorem scale_millions_truthy (o : Option ℚ) :
    (∀ v : ℚ, o = some v → v ≠ 0 → scaleMillions o = some (roundTo2 (v / 1000000))) ∧
    (o = none → scaleMillions o = none) ∧
    (o = some 0 → scaleMillions o = none) ∧
    scaleMillions (some 12345678) = some (247 / 20) ∧
    (∀ (p : Provider) (d : String) (a : ℤ) (e : FundEntry) (r : ReportRow)
        (s : FundamentalsSnapshot),
        buildRow p d a e = .ok r →
        get_fundamentals_asof (p.balance e.fund) a = .ok s →
        r.shares_millions = scaleMillions s.shares_outstanding ∧
        r.debt_millions = scaleMillions s.total_debt) := by
  have hfloor : ⌊(12345678 / 1000000 * 100 : ℚ)⌋ = 1234 := by norm_num
  have hround : roundHalfEven (12345678 / 1000000 * 100 : ℚ) = 1235 := by
    unfold roundHalfEven
    rw [hfloor]
    rw [if_neg (by push_cast; norm_num), if_pos (by push_cast; norm_num)]
    norm_num
  have hscale : scaleMillions (some 12345678) = some (247 / 20) := by
    simp only [scaleMillions, pyTruthy]
    rw [if_pos (by norm_num)]
    simp only [Option.getD_some, roundTo2, hround]
    norm_num
  refine ⟨?_, ?_, ?_, hscale, ?_⟩
  · intro v hv hvne
    subst hv
    simp [scaleMillions, pyTruthy, hvne]
  · intro h
    subst h
    simp [scaleMillions, pyTruthy]
  · intro h
    subst h
    simp [scaleMillions, pyTruthy]
  · intro p d a e r s hr hs
    obtain ⟨s2, hf2, hfields⟩ := buildRow_ok_fields p d a e r hr
    rw [hs] at hf2
    injection hf2 with hss
    subst hss
    subst hfields
    exact ⟨rfl, rfl⟩

/-- Claim C1 counterexample: a provider whose balance-sheet fetch raises
makes get_fundamentals_asof propagate the fault instead of returning the
all-fields-absent snapshot, and the fault aborts the batch loop: the one-fund
report run ends in the propagated error, with no rows. -/
theorem fundamentals_fault_not_caught_counterexample :
    get_fundamentals_asof (providerC1.balance ("FNDX")) 0 = .error ("network down") ∧
    get_fundamentals_asof (providerC1.balance ("FNDX")) 0 ≠ .ok absentSnapshot ∧
    build_report providerC1 ("2024-01-05") 0 [entryC1] = .error ("network down") :=
  ⟨rfl, fun h => Except.noConfusion h, rfl⟩

/-- Claim C1 (amended): a provider fault raised during the fundamentals
fetch is not caught by get_fundamentals_asof: it propagates to the caller,
and a fault on any fund aborts the batch loop of build_report; only an empty
balance sheet or the absence of valid report dates yields the
all-fields-absent snapshot. -/
theorem fundamentals_fault_propagates (p : Provider) (e : FundEntry) (es : List FundEntry)
    (d : String) (as_of : ℤ) (msg : String)
    (h : p.balance e.fund = .error msg) :
    get_fundamentals_asof (p.balance e.fund) as_of = .error msg ∧
    build_report p d as_of (e :: es) = .error msg := by
  have h1 : get_fundamentals_asof (p.balance e.fund) as_of = .error msg := by
    rw [h]
    rfl
  refine ⟨h1, ?_⟩
  simp only [build_report, buildRow, h1]

/-- Claim C1 witness: the propagation theorem applied to a concrete faulting
provider and a one-fund batch. -/
theorem fundamentals_fault_propagates_witness :
    get_fundamentals_asof (providerC1.balance entryC1.fund) 5 = .error ("network down") ∧
    build_report providerC1 ("2024-01-06") 5 [entryC1] = .error ("network down") :=
  fundamentals_fault_propagates providerC1 entryC1 [] ("2024-01-06") 5
    ("network down") rfl

/-- Claim C3 counterexample: a balance sheet with a report date at or before
the as-of date but no line-item rows is empty in the pandas sense, so
get_fundamentals_asof returns the all-absent snapshot: its report_date is
absent rather than the maximum valid date 0, refuting the claim that a
non-empty valid-date set always yields the snapshot at its maximum. -/
theorem fundamentals_no_lookahead_counterexample :
    ((⟨[0], [], fun _ _ => 0⟩ : BalanceSheet).columns.filter
        (fun x => decide (x ≤ (0 : ℤ))) = [0]) ∧
    (get_fundamentals_asof (.ok (⟨[0], [], fun _ _ => 0⟩ : BalanceSheet)) 0).map
        FundamentalsSnapshot.report_date = .ok none :=
  ⟨by decide, rfl⟩

/-- Claim C3 (amended): get_fundamentals_asof never selects a report dated
after the as-of date: any returned report_date is a valid date and is the
maximum of the dates at most as_of; an empty valid-date set yields the
all-absent snapshot; and when the sheet also has at least one line-item row,
a non-empty valid-date set yields the snapshot taken at its maximum, whose
report_date equals that maximum. -/
theorem fundamentals_no_lookahead (b : BalanceSheet) (as_of : ℤ) :
    (∀ (s : FundamentalsSnapshot) (dd : ℤ),
        get_fundamentals_asof (.ok b) as_of = .ok s → s.report_date = some dd →
        dd ≤ as_of ∧ dd ∈ b.columns ∧ ∀ x ∈ b.columns, x ≤ as_of → x ≤ dd) ∧
    (b.columns.filter (fun x => decide (x ≤ as_of)) = [] →
        get_fundamentals_asof (.ok b) as_of = .ok absentSnapshot) ∧
    (b.index ≠ [] → ∀ (d : ℤ) (ds : List ℤ),
        b.columns.filter (fun x => decide (x ≤ as_of)) = d :: ds →
        get_fundamentals_asof (.ok b) as_of = .ok (snapshotAt b (List.foldl max d ds)) ∧
        (snapshotAt b (List.foldl max d ds)).report_date
           = some (List.foldl max d ds)) := by
  refine ⟨?_, ?_, ?_⟩
  · intro s dd hs hd
    rcases get_fundamentals_ok_cases b as_of s hs with rfl | ⟨d, ds, hf, rfl⟩
    · simp [absentSnapshot] at hd
    · have hdd : List.foldl max d ds = dd := by
        simpa [snapshotAt] using hd
      subst hdd
      have hmem : List.foldl max d ds ∈ d :: ds := by
        rcases foldl_max_mem ds d with h | h
        · rw [h]
          exact List.mem_cons_self d ds
        · exact List.mem_cons_of_mem d h
      rw [← hf] at hmem
      rw [List.mem_filter] at hmem
      obtain ⟨hcol, hle⟩ := hmem
      refine ⟨of_decide_eq_true hle, hcol, ?_⟩
      intro x hx hxle
      have hxf : x ∈ b.columns.filter (fun y => decide (y ≤ as_of)) :=
        List.mem_filter.mpr ⟨hx, decide_eq_true hxle⟩
      rw [hf] at hxf
      rcases List.mem_cons.mp hxf with rfl | hxs
      · exact (foldl_max_le ds x).1
      · exact (foldl_max_le ds d).2 x hxs
  · intro hf
    exact get_fundamentals_empty_filter b as_of hf
  · intro hidx d ds hf
    exact ⟨get_fundamentals_valid_branch b as_of hidx d ds hf, rfl⟩

/-- Claim C3 witness: with report dates 5 and 3, as-of date 4 selects date 3,
and as-of date 2 (earlier than every report date) yields all fields absent. -/
theorem fundamentals_no_lookahead_witness :
    get_fundamentals_asof (.ok balC3w) 4 = .ok (snapshotAt balC3w (List.foldl max 3 [])) ∧
    get_fundamentals_asof (.ok balC3w) 2 = .ok absentSnapshot := by
  constructor
  · exact ((fundamentals_no_lookahead balC3w 4).2.2 (by decide) 3 [] (by decide)).1
  · exact (fundamentals_no_lookahead balC3w 2).2.1 (by decide)

/-- Claim C6 counterexample: a balance sheet with a valid report date but no
line-item rows lacks the outside-equity line item, yet get_fundamentals_asof
returns outside equity absent (None), not 0, because pandas treats the
zero-row frame as empty. -/
theorem outside_equity_zero_default_counterexample :
    ((⟨[0], [], fun _ _ => 0⟩ : BalanceSheet).columns.filter
        (fun x => decide (x ≤ (0 : ℤ))) = [0]) ∧
    ("Preferred Securities Outside Stock Equity"
        ∉ (⟨[0], [], fun _ _ => 0⟩ : BalanceSheet).index) ∧
    (get_fundamentals_asof (.ok (⟨[0], [], fun _ _ => 0⟩ : BalanceSheet)) 0).map
        FundamentalsSnapshot.outside_equity = .ok none :=
  ⟨by decide, by decide, rfl⟩

/-- Claim C6 (amended): on a balance sheet with at least one line-item row
and at least one report date at most the as-of date, get_fundamentals_asof
returns a snapshot whose outside equity is 0 (not absent) when the line item
"Preferred Securities Outside Stock Equity" is missing, while shares
outstanding and total debt are absent when all their candidate line items
are missing. -/
theorem outside_equity_zero_default (b : BalanceSheet) (as_of : ℤ)
    (hidx : b.index ≠ []) (d : ℤ) (ds : List ℤ)
    (hf : b.columns.filter (fun x => decide (x ≤ as_of)) = d :: ds) :
    get_fundamentals_asof (.ok b) as_of = .ok (snapshotAt b (List.foldl max d ds)) ∧
    ("Preferred Securities Outside Stock Equity" ∉ b.index →
        (snapshotAt b (List.foldl max d ds)).outside_equity = some 0) ∧
    ("Ordinary Shares Number" ∉ b.index → "Share Issued" ∉ b.index →
        (snapshotAt b (List.foldl max d ds)).shares_outstanding = none) ∧
    ("Total Debt" ∉ b.index → "Long Term Debt" ∉ b.index → "Current Debt" ∉ b.index →
        (snapshotAt b (List.foldl max d ds)).total_debt = none) := by
  refine ⟨get_fundamentals_valid_branch b as_of hidx d ds hf, ?_, ?_, ?_⟩
  · intro h1
    simp [snapshotAt, lookupFirst, h1]
  · intro h1 h2
    simp [snapshotAt, lookupFirst, h1, h2]
  · intro h1 h2 h3
    simp [snapshotAt, lookupFirst, h1, h2, h3]

/-- Claim C6 witness: a sheet holding only a Cash row yields outside equity
0 with shares and debt absent. -/
theorem outside_equity_zero_default_witness :
    get_fundamentals_asof (.ok balC6w) 0 = .ok (snapshotAt balC6w (List.foldl max 0 [])) ∧
    (snapshotAt balC6w (List.foldl max 0 [])).outside_equity = some 0 ∧
    (snapshotAt balC6w (List.foldl max 0 [])).shares_outstanding = none ∧
    (snapshotAt balC6w (List.foldl max 0 [])).total_debt = none := by
  obtain ⟨h1, h2, h3, h4⟩ := outside_equity_zero_default balC6w 0 (by decide) 0 [] (by decide)
  exact ⟨h1, h2 (by decide), h3 (by decide) (by decide), h4 (by decide) (by decide) (by decide)⟩

/-- Claim C7: line-item fallback consults candidates in a fixed priority
order and the first present one wins: Ordinary Shares Number beats Share
Issued whenever it is present, and total debt tries Total Debt, then Long
Term Debt, then Current Debt. -/
theorem line_item_priority (b : BalanceSheet) (as_of : ℤ) (s : FundamentalsSnapshot)
    (latest : ℤ) (h : get_fundamentals_asof (.ok b) as_of = .ok s)
    (hrep : s.report_date = some latest) :
    ("Ordinary Shares Number" ∈ b.index →
        s.shares_outstanding = some (b.loc ("Ordinary Shares Number") latest)) ∧
    ("Ordinary Shares Number" ∉ b.index → "Share Issued" ∈ b.index →
        s.shares_outstanding = some (b.loc ("Share Issued") latest)) ∧
    ("Total Debt" ∈ b.index → s.total_debt = some (b.loc ("Total Debt") latest)) ∧
    ("Total Debt" ∉ b.index → "Long Term Debt" ∈ b.index →
        s.total_debt = some (b.loc ("Long Term Debt") latest)) ∧
    ("Total Debt" ∉ b.index → "Long Term Debt" ∉ b.index → "Current Debt" ∈ b.index →
        s.total_debt = some (b.loc ("Current Debt") latest)) := by
  rcases get_fundamentals_ok_cases b as_of s h with rfl | ⟨d, ds, hf, rfl⟩
  · simp [absentSnapshot] at hrep
  · have hL : List.foldl max d ds = latest := by
      simpa [snapshotAt] using hrep
    subst hL
    refine ⟨?_, ?_, ?_, ?_, ?_⟩
    · intro h1
      simp [snapshotAt, lookupFirst, h1]
    · intro h1 h2
      simp [snapshotAt, lookupFirst, h1, h2]
    · intro h1
      simp [snapshotAt, lookupFirst, h1]
    · intro h1 h2
      simp [snapshotAt, lookupFirst, h1, h2]
    · intro h1 h2 h3
      simp [snapshotAt, lookupFirst, h1, h2, h3]

/-- Claim C7 witness: with both shares candidates and Total Debt present,
the resolved values come from Ordinary Shares Number (11) and Total Debt
(22), not from Share Issued (33). -/
theorem line_item_priority_witness :
    (snapshotAt balC7w (List.foldl max 0 [])).shares_outstanding = some 11 ∧
    (snapshotAt balC7w (List.foldl max 0 [])).total_debt = some 22 := by
  obtain ⟨h1, h2, h3, h4, h5⟩ := line_item_priority balC7w 0
    (snapshotAt balC7w (List.foldl max 0 [])) (List.foldl max 0 [])
    (get_fundamentals_valid_branch balC7w 0 (by decide) 0 [] (by decide)) rfl
  constructor
  · rw [h1 (by decide)]
    decide
  · rw [h3 (by decide)]
    decide

/-- Claim C8: reference rows missing either ticker are silently dropped by
the load, and a successfully built report has exactly one row per surviving
entry, in the positional order of the input table. -/
theorem one_row_per_kept_entry (raw : List RawEntry) (p : Provider) (d : String) (a : ℤ)
    (rows : List ReportRow)
    (h : build_report p d a (load_tickers raw) = .ok rows) :
    (∀ (r : RawEntry) (rest : List RawEntry), r.fund = none ∨ r.nav = none →
        load_tickers (r :: rest) = load_tickers rest) ∧
    (∀ (r : RawEntry) (rest : List RawEntry) (f n : String),
        r.fund = some f → r.nav = some n →
        load_tickers (r :: rest) =
          ⟨f, n, r.fund_type, r.subcategory, r.broad_category, r.region⟩
            :: load_tickers rest) ∧
    List.Forall₂ (fun e row => buildRow p d a e = .ok row) (load_tickers raw) rows := by
  refine ⟨?_, ?_, build_report_forall2 p d a (load_tickers raw) rows h⟩
  · intro r rest hmiss
    cases hrf : r.fund with
    | none => simp [load_tickers, hrf]
    | some f =>
        cases hrn : r.nav with
        | none => simp [load_tickers, hrf, hrn]
        | some n =>
            rw [hrf, hrn] at hmiss
            rcases hmiss with h1 | h1 <;> exact absurd h1 (by simp)
  · intro r rest f n hrf hrn
    simp [load_tickers, hrf, hrn]

/-- Claim C8 witness: one valid entry plus one entry missing the NAV ticker
load to a single entry, and the built report pairs that single entry with
its single row. -/
theorem one_row_per_kept_entry_witness :
    load_tickers [rawValidW, rawBadW]
        = [⟨("FNDX"), ("NAVX"), ("T"), ("S"), ("B"), ("R")⟩] ∧
    List.Forall₂ (fun e row => buildRow providerC8w ("2024-01-05") 0 e = .ok row)
      (load_tickers [rawValidW, rawBadW]) [rowC8w] := by
  have h : build_report providerC8w ("2024-01-05") 0 (load_tickers [rawValidW, rawBadW])
      = .ok [rowC8w] := rfl
  obtain ⟨h1, h2, h3⟩ := one_row_per_kept_entry [rawValidW, rawBadW] providerC8w
    ("2024-01-05") 0 [rowC8w] h
  exact ⟨by decide, h3⟩

/-- Claim C10: the assembled report is independent of the resolved outside
equity: two runs whose providers agree on names and price histories and
whose balance sheets differ only in the value of the line item Preferred
Securities Outside Stock Equity build identical reports, because outside
equity is extracted but never written into any row. -/
theorem report_independent_of_outside_equity (p1 p2 : Provider) (d : String) (a : ℤ)
    (es : List FundEntry)
    (hname : p1.longName = p2.longName) (hhist : p1.history = p2.history)
    (hbal : ∀ t : String, balanceSimilar (p1.balance t) (p2.balance t)) :
    build_report p1 d a es = build_report p2 d a es := by
  induction es with
  | nil => rfl
  | cons e es ih =>
      simp only [build_report, buildRow_agree p1 p2 d a e hname hhist (hbal e.fund), ih]

/-- Claim C10 witness: two providers whose sheets value the outside-equity
line item at 5 and at 9 respectively build the same one-row report. -/
theorem report_independent_of_outside_equity_witness :
    build_report providerC10a ("2024-01-05") 0 [entryC1]
      = build_report providerC10b ("2024-01-05") 0 [entryC1] := by
  apply report_independent_of_outside_equity
  · rfl
  · rfl
  · intro t
    show agreeExceptOutside balW1 balW2
    refine ⟨rfl, rfl, ?_⟩
    intro r dd hr
    show (if r = ("Preferred Securities Outside Stock Equity") then (5 : ℚ) else 7)
        = (if r = ("Preferred Securities Outside Stock Equity") then (9 : ℚ) else 7)
    rw [if_neg hr, if_neg hr]

/-- Claim C5 witness: the spec example 12,345,678 scales to 12.35 million,
and an absent value stays absent. -/
theorem scale_millions_truthy_witness :
    scaleMillions (some 12345678) = some (247 / 20) ∧ scaleMillions none = none := by
  constructor
  · exact (scale_millions_truthy (some 12345678)).2.2.2.1
  · exact (scale_millions_truthy none).2.1 rfl
